import Mathlib

/-!
Shallow embedding of the ETF macro dashboard core (src/app.py) and proofs
about its data acquisition, normalization and signal-classification logic.

Modelling conventions, used uniformly below:
* a Python float that may be NaN is modelled as `Option ℚ`: `none` is NaN
  (or a missing/unparseable cell after a pandas `errors="coerce"` coercion),
  `some q` is an ordinary finite value;
* a pandas timestamp is modelled as `Option ℤ` (`none` is NaT, `some d` an
  ordinary date, ordered as integers);
* IEEE comparisons (`<`, `<=`, `>=`, `>`, `==`) on such values are the
  functions `flt`, `fle`, `fge`, `fgt`, `feq` below: any comparison with a
  NaN operand is `false`;
* network/parse effects are passed in explicitly as oracles: an attempt
  oracle maps the attempt index to either an error (anything `requests.get`,
  `raise_for_status` or `pd.read_csv` would raise, collapsed to its message)
  or the coerced raw frame the attempt would have produced.
-/

/-- IEEE-style `<` on possibly-NaN values: false whenever an operand is NaN. -/
def flt (a b : Option ℚ) : Bool :=
  match a, b with
  | some x, some y => decide (x < y)
  | _, _ => false

/-- IEEE-style `<=` on possibly-NaN values: false whenever an operand is NaN. -/
def fle (a b : Option ℚ) : Bool :=
  match a, b with
  | some x, some y => decide (x ≤ y)
  | _, _ => false

/-- IEEE-style `>=` on possibly-NaN values: false whenever an operand is NaN. -/
def fge (a b : Option ℚ) : Bool :=
  match a, b with
  | some x, some y => decide (y ≤ x)
  | _, _ => false

/-- IEEE-style `>` on possibly-NaN values: false whenever an operand is NaN. -/
def fgt (a b : Option ℚ) : Bool :=
  match a, b with
  | some x, some y => decide (y < x)
  | _, _ => false

/-- IEEE-style `==` on possibly-NaN values: false whenever an operand is NaN
(in particular NaN is not equal to itself). -/
def feq (a b : Option ℚ) : Bool :=
  match a, b with
  | some x, some y => decide (x = y)
  | _, _ => false

/-- Multiplication of a possibly-NaN value by a constant (`oas*100` in the
source): NaN propagates. -/
def omul (a : Option ℚ) (c : ℚ) : Option ℚ := a.map (· * c)

/-- src/app.py, `to_decimal` (lines 168-170):
`if pd.isna(x): return np.nan` / `return x/100 if x > 1 else x`. -/
def to_decimal (x : Option ℚ) : Option ℚ :=
  match x with
  | none => none
  | some q => if 1 < q then some (q / 100) else some q

/-- src/app.py, line 173:
`curve_bps = (y10d - y2d) * 10000 if (pd.notna(y10d) and pd.notna(y2d)) else np.nan`. -/
def curve_bps (y10d y2d : Option ℚ) : Option ℚ :=
  match y10d, y2d with
  | some a, some b => some ((a - b) * 10000)
  | _, _ => none

/-- One row of a fetched / merged data frame: the columns `Date`, `Value`,
`Name` of src/app.py. `Date` is `none` when `pd.to_datetime(-, errors="coerce")`
produced NaT, `Value` is `none` when `pd.to_numeric(-, errors="coerce")`
produced NaN. -/
structure Row where
  date : Option ℤ
  value : Option ℚ
  name : String
deriving DecidableEq, Repr

/-- Pandas ascending sort order on possibly-NaT dates: NaT sorts last
(`sort_values` default `na_position="last"`). -/
def dateLE : Option ℤ → Option ℤ → Bool
  | some a, some b => decide (a ≤ b)
  | some _, none => true
  | none, some _ => false
  | none, none => true

/-- The row order used by `sub.sort_values("Date")`: compare the `Date` cells. -/
def dRel (a b : Row) : Prop := dateLE a.date b.date = true

instance : DecidableRel dRel := fun a b => by unfold dRel; infer_instance

instance : IsTotal Row dRel := by
  constructor
  intro a b
  unfold dRel dateLE
  rcases a.date with _ | x <;> rcases b.date with _ | y <;> simp
  exact le_total x y

instance : IsTrans Row dRel := by
  constructor
  intro a b c
  unfold dRel dateLE
  rcases a.date with _ | x <;> rcases b.date with _ | y <;> rcases c.date with _ | z <;> simp
  exact le_trans

/-- src/app.py, `latest_value` (lines 108-114).  The empty-subframe branch and
the `sub.sort_values("Date").iloc[-1]` branch are both captured by taking the
last element of a stable ascending sort of the matching rows: `getLast?` is
`none` exactly when `sub` is empty, in which case `(np.nan, None)` is
returned. -/
def latest_value (df_all : List Row) (nm : String) : Option ℚ × Option ℤ :=
  let sub := df_all.filter (fun r => r.name == nm)
  match (List.insertionSort dRel sub).getLast? with
  | some row => (row.value, row.date)
  | none => (none, none)

/-- A raw coerced frame as it stands just after the two
`errors="coerce"` coercions inside a fetch attempt: one `(Date, Value)`
cell pair per CSV row. -/
abbrev RawFrame : Type := List (Option ℤ × Option ℚ)

/-- src/app.py, lines 53-58 (and the analogous lines 94-99 of `fetch_tp10`):
attach the series name (`out["Name"] = series_id`) and drop the rows whose
date failed coercion (`out.dropna(subset=["Date"])`).  Rows whose value
failed coercion are kept at this stage. -/
def coerceFrame (sid : String) (raw : RawFrame) : List Row :=
  (raw.map (fun c => { date := c.1, value := c.2, name := sid })).filter
    (fun r => r.date.isSome)

/-- src/app.py, line 63 / line 103: the message of the `RuntimeError` raised
after all attempts failed, `f"Failed to fetch {series_id}: {last_err}"`
(Python renders a still-unset `last_err` as `"None"`). -/
def failMsg (sid : String) (lastErr : Option String) : String :=
  "Failed to fetch " ++ sid ++ ": " ++
    (match lastErr with
     | some e => e
     | none => "None")

/-- src/app.py, lines 37-63: the attempt loop of `fetch_fred_series` (also
reused for `fetch_tp10`, whose loop has the same shape with one attempt per
URL).  `idxs` is the list of remaining attempt indices, `lastErr` the
`last_err` accumulator.  A successful attempt immediately returns the
coerced, date-filtered frame; a failing attempt records its error and moves
on; an exhausted loop raises with the last error observed. -/
def runAttempts (sid : String) (oracle : ℕ → Except String RawFrame) :
    List ℕ → Option String → Except String (List Row)
  | [], last => Except.error (failMsg sid last)
  | i :: rest, _ =>
    match oracle i with
    | Except.ok raw => Except.ok (coerceFrame sid raw)
    | Except.error e => runAttempts sid oracle rest (some e)

/-- src/app.py, `fetch_fred_series` (lines 23-63): two template URLs, each
tried twice (`for url in urls: for _ in range(2)`), flattened to attempt
indices 0,1 (retries of the `downloaddata` URL) and 2,3 (retries of the
`fredgraph` URL).  The oracle stands for everything inside the `try` block
up to the coercions: `requests.get`, `raise_for_status` and `pd.read_csv`;
any exception there is an `Except.error` carrying its message. -/
def fetch_fred_series (sid : String) (oracle : ℕ → Except String RawFrame) :
    Except String (List Row) :=
  runAttempts sid oracle [0, 1, 2, 3] none

/-- src/app.py, `fetch_tp10` (lines 66-103): four candidate URLs, one attempt
each, series name fixed to `"TP10"`.  The preamble-stripping header scan and
the CSV parse inside the `try` block are absorbed into the oracle outcome,
exactly like the request itself: if the header row is not found the
`next(...)` raises `StopIteration`, which the bare `except` turns into the
recorded error for that URL. -/
def fetch_tp10 (oracle : ℕ → Except String RawFrame) : Except String (List Row) :=
  runAttempts "TP10" oracle [0, 1, 2, 3] none

/-- src/app.py, line 147: the fatal-condition message shown when no frame at
all could be fetched. -/
def noDataMsg : String := "No data could be loaded. Please refresh or try again."

/-- src/app.py, lines 132-153: the merge step.  `results` is the ordered list
of per-series fetch outcomes (series identifier paired with either the
fetched frame or the caught exception's message), covering the FRED loop and
the optional TP10 fetch.  `frames` and `fetch_errors` are the two
accumulator lists of the source; `if not frames` aborts fatally
(`st.error` + `st.stop`); otherwise
`data = pd.concat(frames, ignore_index=True).dropna(subset=["Value"])`
together with the batched warning lines `f"{sid}: {e}"`. -/
def mergeFrames (results : List (String × Except String (List Row))) :
    Except String (List Row × List String) :=
  let frames := results.filterMap (fun p =>
    match p.2 with
    | Except.ok f => some f
    | Except.error _ => none)
  let fetch_errors := results.filterMap (fun p =>
    match p.2 with
    | Except.ok _ => none
    | Except.error e => some (p.1 ++ ": " ++ e))
  if frames.isEmpty then
    Except.error noDataMsg
  else
    Except.ok ((frames.flatten).filter (fun r => r.value.isSome), fetch_errors)

/-- The threshold bounds read from `config.yaml` into `TH = CFG["tiles"]`
(src/app.py, lines 14-17).  The configuration file itself is outside the
core; the classifier only ever reads these numeric keys, which are
therefore modelled as an immutable record of rationals. -/
structure ThresholdCfg where
  pmi_green_min : ℚ
  pmi_yellow_min : ℚ
  dxy_green_max : ℚ
  dxy_yellow_max : ℚ
  hyoas_green_max_bps : ℚ
  hyoas_yellow_max_bps : ℚ
  curve_green_min_bps : ℚ
  curve_yellow_min_bps : ℚ
  wti_green_min : ℚ
  wti_yellow_min : ℚ
  y10_green_max : ℚ
  y10_yellow_max : ℚ
  tips_green_max : ℚ
  tips_yellow_max : ℚ
  tp10_green_max : ℚ
  tp10_yellow_max : ℚ
deriving DecidableEq, Repr

/-- The module-level scalars `signal_for` closes over (src/app.py,
lines 158-173): the resolved indicator values `pmi`, `dxy`, `oas`, `wti`,
the normalized yields `y10d`, `tipsd`, `tp10d`, and the derived
`curve_bps`.  Each may be NaN (`none`). -/
structure Scalars where
  pmi : Option ℚ
  dxy : Option ℚ
  oas : Option ℚ
  wti : Option ℚ
  y10d : Option ℚ
  tipsd : Option ℚ
  tp10d : Option ℚ
  curve_bps : Option ℚ
deriving DecidableEq, Repr

/-- src/app.py, line 270: the literal returned by `signal_for` when no rule
matches a ticker (`return "SETUP"`).  This literal is the source's rendering
of the specification's UNCLASSIFIED category: the signal colorizer
(lines 276-281) styles exactly `"GREEN"`, `"YELLOW"` and `"RED"` and leaves
this fourth value as the distinct unstyled category. -/
def UNCLASSIFIED : String := "SETUP"

/-- src/app.py, `signal_for` (lines 237-270), transcribed branch by branch.
Python `and`/`or` on the boolean results of float comparisons are `&&`/`||`;
every comparison is one of the IEEE-style operators above, so a NaN operand
makes that single comparison false.  Thresholds `TH[...]` are ordinary
(non-NaN) numbers from the configuration. -/
def signal_for (tk : String) (s : Scalars) (TH : ThresholdCfg) : String :=
  if tk = "XLE" then
    if fge s.pmi (some TH.pmi_green_min) && fle s.dxy (some TH.dxy_green_max) &&
        fge s.wti (some TH.wti_green_min) then "GREEN"
    else if fge s.pmi (some TH.pmi_yellow_min) then "YELLOW" else "RED"
  else if tk = "XLB" then
    if fge s.pmi (some TH.pmi_green_min) && fle s.dxy (some TH.dxy_green_max) &&
        flt (omul s.oas 100) (some TH.hyoas_yellow_max_bps) then "GREEN"
    else if fge s.pmi (some TH.pmi_yellow_min) then "YELLOW" else "RED"
  else if tk = "XLI" then
    if fge s.pmi (some TH.pmi_green_min) &&
        fge s.curve_bps (some TH.curve_yellow_min_bps) then "GREEN"
    else if fge s.pmi (some TH.pmi_yellow_min) then "YELLOW" else "RED"
  else if tk = "XLF" ∨ tk = "FAS" ∨ tk = "BNKU" then
    if fge s.curve_bps (some TH.curve_green_min_bps) &&
        fle (omul s.oas 100) (some TH.hyoas_yellow_max_bps) then "GREEN"
    else if fge s.curve_bps (some TH.curve_yellow_min_bps) &&
        fle (omul s.oas 100) (some TH.hyoas_yellow_max_bps) then "YELLOW" else "RED"
  else if tk = "XLK" ∨ tk = "XLC" ∨ tk = "SOXL" then
    if flt s.tipsd (some TH.tips_green_max) && fge s.pmi (some TH.pmi_yellow_min) then "GREEN"
    else if flt s.tipsd (some TH.tips_yellow_max) then "YELLOW" else "RED"
  else if tk = "XLV" ∨ tk = "XLP" then
    if flt s.pmi (some TH.pmi_yellow_min) ||
        fge (omul s.oas 100) (some TH.hyoas_yellow_max_bps) then "GREEN" else "YELLOW"
  else if tk = "XLY" ∨ tk = "RETL" then
    if fge s.pmi (some TH.pmi_green_min) &&
        flt (omul s.oas 100) (some TH.hyoas_green_max_bps) &&
        flt s.y10d (some TH.y10_green_max) then "GREEN"
    else if fge s.pmi (some TH.pmi_yellow_min) then "YELLOW" else "RED"
  else if tk = "XLU" then
    if flt s.y10d (some TH.y10_green_max) ||
        fge (omul s.oas 100) (some TH.hyoas_yellow_max_bps) then "GREEN" else "YELLOW"
  else if tk = "XLRE" ∨ tk = "DRN" then
    if flt s.y10d (some TH.y10_green_max) && flt s.tp10d (some TH.tp10_green_max) &&
        flt (omul s.oas 100) (some TH.hyoas_yellow_max_bps) then "GREEN"
    else if flt s.y10d (some TH.y10_yellow_max) &&
        flt (omul s.oas 100) (some (TH.hyoas_yellow_max_bps + 50)) then "YELLOW" else "RED"
  else if tk = "GLD" then
    if flt s.tipsd (some 0.016) && fle s.dxy (some TH.dxy_green_max) then "GREEN"
    else if flt s.tipsd (some TH.tips_yellow_max) || fle s.dxy (some TH.dxy_yellow_max)
      then "YELLOW" else "RED"
  else if tk = "RUT" then
    if fge s.pmi (some TH.pmi_green_min) && fge s.curve_bps (some TH.curve_green_min_bps) &&
        flt (omul s.oas 100) (some TH.hyoas_yellow_max_bps) then "GREEN"
    else if fge s.pmi (some TH.pmi_yellow_min) &&
        flt (omul s.oas 100) (some TH.hyoas_yellow_max_bps) then "YELLOW" else "RED"
  else if tk = "NAIL" then
    if flt s.y10d (some TH.y10_green_max) && fge s.pmi (some TH.pmi_green_min) then "GREEN"
    else if flt s.y10d (some TH.y10_yellow_max) then "YELLOW" else "RED"
  else if tk = "TMF" then
    if flt s.y10d (some TH.y10_green_max) && flt s.tp10d (some TH.tp10_green_max) &&
        flt s.tipsd (some TH.tips_green_max) then "GREEN"
    else if flt s.y10d (some TH.y10_yellow_max) || flt s.tp10d (some TH.tp10_yellow_max)
      then "YELLOW" else "RED"
  else if tk = "BITX" ∨ tk = "ETHU" then
    if flt s.tipsd (some 0.020) && fle s.dxy (some TH.dxy_yellow_max) then "GREEN" else "YELLOW"
  else if tk = "DFEN" ∨ tk = "EUAD" then
    if fge s.pmi (some TH.pmi_yellow_min) || flt (omul s.oas 100) (some 550) then "GREEN"
    else "YELLOW"
  else if tk = "YINN" then
    if fge s.pmi (some TH.pmi_green_min) && fle s.dxy (some TH.dxy_green_max) then "GREEN"
    else if fge s.pmi (some TH.pmi_yellow_min) then "YELLOW" else "RED"
  else UNCLASSIFIED

/-- src/app.py, `ETF_ROWS` (lines 209-235): the configured ticker list with
its static rationale strings, in source order. -/
def ETF_ROWS : List (String × String) := [
  ("XLE", "Energy: PMI expansion + softer USD support commodities; oil price is direct driver."),
  ("XLB", "Materials: manufacturing + weaker USD + tight credit help."),
  ("XLI", "Industrials: orders/capex improve with PMI; less inversion supports financing."),
  ("XLF", "Financials: steeper curve lifts NIM; tighter spreads reduce credit risk."),
  ("XLK", "Tech: lower real yields (duration) + stable demand aid valuations."),
  ("XLV", "Health Care: defensive when growth cools or spreads widen."),
  ("XLY", "Discretionary: demand + easy credit + moderate long rates."),
  ("XLU", "Utilities: bond-proxy; lower yields and defensiveness help."),
  ("XLP", "Staples: defensive; relative strength when growth slows."),
  ("XLC", "Comm Services: growth/advertising tilt; lower real yields supportive."),
  ("XLRE", "REITs: long rates/term premium drive cap rates; credit spreads matter."),
  ("GLD", "Gold: inverse to real yields and USD."),
  ("RUT", "Small caps: growth + steepening + tight spreads."),
  ("YINN", "China proxy (3x): global cycle + softer USD aid exports/commodities."),
  ("SOXL", "Semis: cyclical + duration; lower real yields & tight spreads help."),
  ("FAS", "3x Financials: magnified curve/credit sensitivity."),
  ("BNKU", "3x Big Banks: steeper curve improves NIM; tight spreads support credit."),
  ("DRN", "3x Real Estate: long duration/term premium sensitive; credit helps."),
  ("NAIL", "3x Homebuilders: lower mortgage/long rates + expanding orders."),
  ("RETL", "3x Retail: demand + easy credit; very high gas can weigh."),
  ("TMF", "3x Long Treasuries: fall in yields/term prem/real yields."),
  ("BITX", "2x Bitcoin proxy: easier liquidity (lower real yields/USD)."),
  ("ETHU", "2x Ether proxy: similar exposure to BTC."),
  ("DFEN", "3x Defense/Aero: funding/geopolitics support."),
  ("EUAD", "Europe A&D: budgets/orders tailwinds.")]

/-- The tickers for which `signal_for` has a matching rule branch
(src/app.py, lines 238-269), in branch order. -/
def ruledTickers : List String :=
  ["XLE", "XLB", "XLI", "XLF", "FAS", "BNKU", "XLK", "XLC", "SOXL", "XLV", "XLP",
   "XLY", "RETL", "XLU", "XLRE", "DRN", "GLD", "RUT", "NAIL", "TMF", "BITX",
   "ETHU", "DFEN", "EUAD", "YINN"]

/-- The first-tier (GREEN) condition of each rule branch of `signal_for`,
read off the same source lines; `false` for a ticker with no rule. -/
def greenPred (tk : String) (s : Scalars) (TH : ThresholdCfg) : Bool :=
  if tk = "XLE" then
    fge s.pmi (some TH.pmi_green_min) && fle s.dxy (some TH.dxy_green_max) &&
      fge s.wti (some TH.wti_green_min)
  else if tk = "XLB" then
    fge s.pmi (some TH.pmi_green_min) && fle s.dxy (some TH.dxy_green_max) &&
      flt (omul s.oas 100) (some TH.hyoas_yellow_max_bps)
  else if tk = "XLI" then
    fge s.pmi (some TH.pmi_green_min) && fge s.curve_bps (some TH.curve_yellow_min_bps)
  else if tk = "XLF" ∨ tk = "FAS" ∨ tk = "BNKU" then
    fge s.curve_bps (some TH.curve_green_min_bps) &&
      fle (omul s.oas 100) (some TH.hyoas_yellow_max_bps)
  else if tk = "XLK" ∨ tk = "XLC" ∨ tk = "SOXL" then
    flt s.tipsd (some TH.tips_green_max) && fge s.pmi (some TH.pmi_yellow_min)
  else if tk = "XLV" ∨ tk = "XLP" then
    flt s.pmi (some TH.pmi_yellow_min) || fge (omul s.oas 100) (some TH.hyoas_yellow_max_bps)
  else if tk = "XLY" ∨ tk = "RETL" then
    fge s.pmi (some TH.pmi_green_min) && flt (omul s.oas 100) (some TH.hyoas_green_max_bps) &&
      flt s.y10d (some TH.y10_green_max)
  else if tk = "XLU" then
    flt s.y10d (some TH.y10_green_max) || fge (omul s.oas 100) (some TH.hyoas_yellow_max_bps)
  else if tk = "XLRE" ∨ tk = "DRN" then
    flt s.y10d (some TH.y10_green_max) && flt s.tp10d (some TH.tp10_green_max) &&
      flt (omul s.oas 100) (some TH.hyoas_yellow_max_bps)
  else if tk = "GLD" then
    flt s.tipsd (some 0.016) && fle s.dxy (some TH.dxy_green_max)
  else if tk = "RUT" then
    fge s.pmi (some TH.pmi_green_min) && fge s.curve_bps (some TH.curve_green_min_bps) &&
      flt (omul s.oas 100) (some TH.hyoas_yellow_max_bps)
  else if tk = "NAIL" then
    flt s.y10d (some TH.y10_green_max) && fge s.pmi (some TH.pmi_green_min)
  else if tk = "TMF" then
    flt s.y10d (some TH.y10_green_max) && flt s.tp10d (some TH.tp10_green_max) &&
      flt s.tipsd (some TH.tips_green_max)
  else if tk = "BITX" ∨ tk = "ETHU" then
    flt s.tipsd (some 0.020) && fle s.dxy (some TH.dxy_yellow_max)
  else if tk = "DFEN" ∨ tk = "EUAD" then
    fge s.pmi (some TH.pmi_yellow_min) || flt (omul s.oas 100) (some 550)
  else if tk = "YINN" then
    fge s.pmi (some TH.pmi_green_min) && fle s.dxy (some TH.dxy_green_max)
  else false

/-- The second-tier (YELLOW) condition of each rule branch of `signal_for`.
The branches of the source that have no explicit RED tier (`... else
"YELLOW"`) have the constant `true` here; `false` for a ticker with no
rule. -/
def yellowPred (tk : String) (s : Scalars) (TH : ThresholdCfg) : Bool :=
  if tk = "XLE" then fge s.pmi (some TH.pmi_yellow_min)
  else if tk = "XLB" then fge s.pmi (some TH.pmi_yellow_min)
  else if tk = "XLI" then fge s.pmi (some TH.pmi_yellow_min)
  else if tk = "XLF" ∨ tk = "FAS" ∨ tk = "BNKU" then
    fge s.curve_bps (some TH.curve_yellow_min_bps) &&
      fle (omul s.oas 100) (some TH.hyoas_yellow_max_bps)
  else if tk = "XLK" ∨ tk = "XLC" ∨ tk = "SOXL" then flt s.tipsd (some TH.tips_yellow_max)
  else if tk = "XLV" ∨ tk = "XLP" then true
  else if tk = "XLY" ∨ tk = "RETL" then fge s.pmi (some TH.pmi_yellow_min)
  else if tk = "XLU" then true
  else if tk = "XLRE" ∨ tk = "DRN" then
    flt s.y10d (some TH.y10_yellow_max) &&
      flt (omul s.oas 100) (some (TH.hyoas_yellow_max_bps + 50))
  else if tk = "GLD" then
    flt s.tipsd (some TH.tips_yellow_max) || fle s.dxy (some TH.dxy_yellow_max)
  else if tk = "RUT" then
    fge s.pmi (some TH.pmi_yellow_min) && flt (omul s.oas 100) (some TH.hyoas_yellow_max_bps)
  else if tk = "NAIL" then flt s.y10d (some TH.y10_yellow_max)
  else if tk = "TMF" then
    flt s.y10d (some TH.y10_yellow_max) || flt s.tp10d (some TH.tp10_yellow_max)
  else if tk = "BITX" ∨ tk = "ETHU" then true
  else if tk = "DFEN" ∨ tk = "EUAD" then true
  else if tk = "YINN" then fge s.pmi (some TH.pmi_yellow_min)
  else false

/-- From the specification's words (section 4.5): a three-tier cascade —
try the GREEN predicate first; if false, try the YELLOW predicate; if also
false, RED.  Used to state the refinement claim about `signal_for`. -/
def cascadeSignal (g y : Bool) : String :=
  if g then "GREEN" else if y then "YELLOW" else "RED"

/-- The all-NaN scalar assignment: every input the classifier reads is
missing. -/
def noneScalars : Scalars :=
  { pmi := none, dxy := none, oas := none, wti := none,
    y10d := none, tipsd := none, tp10d := none, curve_bps := none }

/-- Claim C4: `to_decimal` maps NaN to NaN, divides by 100 exactly when the
raw value exceeds 1 and is the identity otherwise, and (under IEEE float
equality and ordering, where NaN compares false) applying it twice agrees
with applying it once exactly when the first application's output is at
most 1. -/
theorem to_decimal_normalization_idempotence :
    to_decimal none = none ∧
    (∀ q : ℚ, to_decimal (some q) = some (if 1 < q then q / 100 else q)) ∧
    (∀ x : Option ℚ, feq (to_decimal (to_decimal x)) (to_decimal x) =
      fle (to_decimal x) (some 1)) := by
  refine ⟨rfl, fun q => ?_, fun x => ?_⟩
  · show (if 1 < q then some (q / 100) else some q) = some (if 1 < q then q / 100 else q)
    split <;> rfl
  rcases x with _ | q
  · rfl
  · by_cases h1 : 1 < q
    · by_cases h2 : 1 < q / 100
      · have hne : q / 100 / 100 ≠ q / 100 := by
          intro heq
          have hq : (0 : ℚ) < q := lt_trans one_pos h1
          have : q / 100 / 100 < q / 100 := by
            apply div_lt_self _ (by norm_num)
            positivity
          exact absurd heq (ne_of_lt this)
        simp [to_decimal, feq, fle, h1, h2, hne, not_le.mpr h2]
      · simp [to_decimal, feq, fle, h1, h2, not_lt.mp h2]
    · simp [to_decimal, feq, fle, h1, not_lt.mp h1]

/-- Claim C5: the curve-slope tile is `(y10d - y2d) * 10000` when both
normalized yields are present and NaN when either is missing, and at the
raw percent inputs 10y = 4.0 and 2y = 4.3 it evaluates to -30 basis
points. -/
theorem curve_bps_present_and_example :
    (∀ a b : ℚ, curve_bps (some a) (some b) = some ((a - b) * 10000)) ∧
    (∀ y : Option ℚ, curve_bps none y = none) ∧
    (∀ y : Option ℚ, curve_bps y none = none) ∧
    curve_bps (to_decimal (some 4)) (to_decimal (some (43 / 10))) = some (-30) := by
  refine ⟨fun a b => rfl, fun y => rfl, fun y => ?_, by norm_num [to_decimal, curve_bps]⟩
  rcases y with _ | a <;> rfl

lemma dateLE_refl (a : Option ℤ) : dateLE a a = true := by
  rcases a with _ | x <;> simp [dateLE]

lemma sorted_getLast?_rel {l : List Row} (hs : List.Sorted dRel l) {m : Row}
    (hm : l.getLast? = some m) : ∀ x ∈ l, x = m ∨ dRel x m := by
  induction l with
  | nil => simp at hm
  | cons a t ih =>
    rcases t with _ | ⟨b, t'⟩
    · simp at hm
      intro x hx
      simp at hx
      subst hx
      exact Or.inl hm
    · rw [List.getLast?_cons_cons] at hm
      have hcons := List.sorted_cons.mp hs
      intro x hx
      rcases List.mem_cons.mp hx with hxa | hxt
      · subst hxa
        exact Or.inr (hcons.1 m (List.mem_of_mem_getLast? hm))
      · exact ih hcons.2 hm x hxt

/-- Claim C6: `latest_value` never raises.  On a table with no row for the
requested series name it returns `(np.nan, None)`; otherwise it returns the
value and date of the last row of the ascending date sort of the matching
rows, a row whose date is maximal in the pandas sort order `dateLE` (on a
unified table every date is non-null, so `dateLE` is just date order; among
rows sharing the maximal date the stable sort puts the one that sorts last
at the end, and that one wins). -/
theorem latest_value_never_fails_max_date (df : List Row) (nm : String) (sub : List Row)
    (hsub : sub = df.filter (fun r => r.name == nm)) :
    (sub = [] → latest_value df nm = (none, none)) ∧
    (sub ≠ [] →
      ∃ row ∈ sub, (List.insertionSort dRel sub).getLast? = some row ∧
        latest_value df nm = (row.value, row.date) ∧
        ∀ r ∈ sub, dateLE r.date row.date = true) := by
  subst hsub
  constructor
  · intro h
    simp only [latest_value, h]
    rfl
  · intro hne
    have hperm := List.perm_insertionSort dRel (df.filter (fun r => r.name == nm))
    have hLne : List.insertionSort dRel (df.filter (fun r => r.name == nm)) ≠ [] := by
      intro h0
      rw [h0] at hperm
      exact hne hperm.symm.eq_nil
    obtain ⟨row, hrow⟩ := Option.isSome_iff_exists.mp (List.getLast?_isSome.mpr hLne)
    have hmemL : row ∈ List.insertionSort dRel (df.filter (fun r => r.name == nm)) :=
      List.mem_of_mem_getLast? hrow
    have hmem : row ∈ df.filter (fun r => r.name == nm) :=
      (List.mem_insertionSort dRel).mp hmemL
    refine ⟨row, hmem, hrow, ?_, ?_⟩
    · simp only [latest_value, hrow]
    · intro r hr
      have hrL : r ∈ List.insertionSort dRel (df.filter (fun r => r.name == nm)) :=
        (List.mem_insertionSort dRel).mpr hr
      rcases sorted_getLast?_rel
          (List.sorted_insertionSort dRel (df.filter (fun r => r.name == nm))) hrow r hrL with
        heq | hrel
      · subst heq
        exact dateLE_refl r.date
      · exact hrel

/-- A concrete threshold configuration used to instantiate universally
quantified theorems at a specific input (values as in the specification's
end-to-end scenario, section 8). -/
def sampleTH : ThresholdCfg :=
  { pmi_green_min := 50, pmi_yellow_min := 48, dxy_green_max := 102, dxy_yellow_max := 105,
    hyoas_green_max_bps := 400, hyoas_yellow_max_bps := 500, curve_green_min_bps := 50,
    curve_yellow_min_bps := 0, wti_green_min := 70, wti_yellow_min := 60,
    y10_green_max := 0.045, y10_yellow_max := 0.05, tips_green_max := 0.02,
    tips_yellow_max := 0.025, tp10_green_max := 0.01, tp10_yellow_max := 0.015 }

/-- A concrete two-row table for one series, used to instantiate theorems. -/
def sampleDf : List Row :=
  [{ date := some 1, value := some 2, name := "DGS10" },
   { date := some 3, value := some 5, name := "DGS10" }]

theorem latest_value_never_fails_max_date_witness :
    ∃ row ∈ sampleDf, (List.insertionSort dRel sampleDf).getLast? = some row ∧
      latest_value sampleDf "DGS10" = (row.value, row.date) ∧
      ∀ r ∈ sampleDf, dateLE r.date row.date = true :=
  (latest_value_never_fails_max_date sampleDf "DGS10" sampleDf (by decide)).2 (by decide)

lemma tier3_mem (g y : Bool) :
    ((if g then "GREEN" else if y then "YELLOW" else "RED") = "GREEN" ∨
     (if g then "GREEN" else if y then "YELLOW" else "RED") = "YELLOW" ∨
     (if g then "GREEN" else if y then "YELLOW" else "RED") = "RED") ∧
    (if g then "GREEN" else if y then "YELLOW" else "RED") ≠ UNCLASSIFIED := by
  cases g <;> cases y <;> simp [UNCLASSIFIED]

lemma tier2_mem (g : Bool) :
    ((if g then "GREEN" else "YELLOW") = "GREEN" ∨
     (if g then "GREEN" else "YELLOW") = "YELLOW" ∨
     (if g then "GREEN" else "YELLOW") = "RED") ∧
    (if g then "GREEN" else "YELLOW") ≠ UNCLASSIFIED := by
  cases g <;> simp [UNCLASSIFIED]

lemma signal_for_unruled (tk : String) (s : Scalars) (TH : ThresholdCfg)
    (hmem : tk ∉ ruledTickers) : signal_for tk s TH = UNCLASSIFIED := by
  simp only [ruledTickers, List.mem_cons, List.not_mem_nil, or_false, not_or] at hmem
  obtain ⟨e1, e2, e3, e4, e5, e6, e7, e8, e9, e10, e11, e12, e13, e14, e15, e16, e17, e18,
    e19, e20, e21, e22, e23, e24, e25⟩ := hmem
  unfold signal_for
  rw [if_neg e1, if_neg e2, if_neg e3,
    if_neg (fun h => h.elim e4 (fun h2 => h2.elim e5 e6)),
    if_neg (fun h => h.elim e7 (fun h2 => h2.elim e8 e9)),
    if_neg (fun h => h.elim e10 e11),
    if_neg (fun h => h.elim e12 e13),
    if_neg e14,
    if_neg (fun h => h.elim e15 e16),
    if_neg e17, if_neg e18, if_neg e19, if_neg e20,
    if_neg (fun h => h.elim e21 e22),
    if_neg (fun h => h.elim e23 e24),
    if_neg e25]

/-- Claim C1: the classifier is total — for every ticker (in particular every
configured one) and every scalar/threshold assignment it returns exactly one
of the four category literals (the source renders the specification's
UNCLASSIFIED category as the fallback literal `"SETUP"`, see `UNCLASSIFIED`),
and a ticker matching no rule gets exactly that fallback category. -/
theorem signal_for_total_four_categories (tk : String) (s : Scalars) (TH : ThresholdCfg) :
    (signal_for tk s TH = "GREEN" ∨ signal_for tk s TH = "YELLOW" ∨
     signal_for tk s TH = "RED" ∨ signal_for tk s TH = UNCLASSIFIED) ∧
    (tk ∉ ruledTickers → signal_for tk s TH = UNCLASSIFIED) := by
  refine ⟨?_, signal_for_unruled tk s TH⟩
  by_cases hm : tk ∈ ruledTickers
  · simp only [ruledTickers] at hm
    fin_cases hm <;> first
      | exact Or.imp id (Or.imp id Or.inl) (tier3_mem _ _).1
      | exact Or.imp id (Or.imp id Or.inl) (tier2_mem _).1
  · exact Or.inr (Or.inr (Or.inr (signal_for_unruled tk s TH hm)))

theorem signal_for_total_four_categories_witness :
    signal_for "SPY" noneScalars sampleTH = UNCLASSIFIED :=
  (signal_for_total_four_categories "SPY" noneScalars sampleTH).2 (by decide)

/-- Claim C2: for every ticker that has a rule, `signal_for` evaluates that
rule as the specification's three-tier cascade over the ticker's first-tier
predicate `greenPred` and second-tier predicate `yellowPred` (for the rule
branches written `... else "YELLOW"` in the source the second tier is the
constant true, so their RED tier is unreachable). -/
theorem signal_for_three_tier_cascade (tk : String) (hmem : tk ∈ ruledTickers)
    (s : Scalars) (TH : ThresholdCfg) :
    signal_for tk s TH = cascadeSignal (greenPred tk s TH) (yellowPred tk s TH) := by
  simp only [ruledTickers] at hmem
  fin_cases hmem <;> rfl

theorem signal_for_three_tier_cascade_witness :
    signal_for "XLE" noneScalars sampleTH =
      cascadeSignal (greenPred "XLE" noneScalars sampleTH)
        (yellowPred "XLE" noneScalars sampleTH) :=
  signal_for_three_tier_cascade "XLE" (by decide) noneScalars sampleTH

/-- Claim C3 counterexample: the XLV/XLP GREEN predicate is a disjunction
`pmi < TH["pmi_yellow_min"] or (oas*100) >= TH["hyoas_yellow_max_bps"]`.
With `pmi` not-a-number (so the predicate touches a NaN input) but `oas`
present and large, the predicate evaluates to TRUE and the classifier
returns GREEN instead of falling through to a later tier, contradicting the
claim that a NaN anywhere in a predicate makes that predicate false. -/
theorem nan_or_predicate_counterexample :
    Scalars.pmi { noneScalars with oas := some 6 } = none ∧
    greenPred "XLV" { noneScalars with oas := some 6 } sampleTH = true ∧
    signal_for "XLV" { noneScalars with oas := some 6 } sampleTH = "GREEN" := by
  refine ⟨rfl, ?_, ?_⟩ <;>
    (norm_num [greenPred, signal_for, noneScalars, sampleTH, flt, fge, fle, omul]; decide)

/-- Claim C3 as amended: every atomic comparison with a NaN operand
evaluates to false without raising, so a predicate all of whose atoms touch
NaN evaluates to false — in particular with every scalar missing, every
ruled ticker's GREEN predicate is false and the cascade falls through past
the GREEN tier.  (An OR-combined predicate with a NaN-free disjunct can
still be true, see the counterexample.) -/
theorem nan_comparisons_false_cascade_falls_through :
    (∀ b : Option ℚ, flt none b = false) ∧ (∀ a : Option ℚ, flt a none = false) ∧
    (∀ b : Option ℚ, fle none b = false) ∧ (∀ a : Option ℚ, fle a none = false) ∧
    (∀ b : Option ℚ, fge none b = false) ∧ (∀ a : Option ℚ, fge a none = false) ∧
    (∀ b : Option ℚ, fgt none b = false) ∧ (∀ a : Option ℚ, fgt a none = false) ∧
    (∀ tk ∈ ruledTickers, ∀ TH : ThresholdCfg,
      greenPred tk noneScalars TH = false ∧ signal_for tk noneScalars TH ≠ "GREEN") := by
  refine ⟨fun b => rfl, fun a => by rcases a with _ | x <;> rfl,
    fun b => rfl, fun a => by rcases a with _ | x <;> rfl,
    fun b => rfl, fun a => by rcases a with _ | x <;> rfl,
    fun b => rfl, fun a => by rcases a with _ | x <;> rfl, ?_⟩
  intro tk htk TH
  simp only [ruledTickers] at htk
  fin_cases htk <;>
    exact ⟨rfl, fun hc => absurd hc (by first
      | exact (by decide : ¬ ("RED" : String) = "GREEN")
      | exact (by decide : ¬ ("YELLOW" : String) = "GREEN"))⟩

theorem nan_comparisons_false_cascade_falls_through_witness :
    greenPred "XLE" noneScalars sampleTH = false ∧
    signal_for "XLE" noneScalars sampleTH ≠ "GREEN" :=
  nan_comparisons_false_cascade_falls_through.2.2.2.2.2.2.2.2 "XLE" (by decide) sampleTH

/-- Claim C10: `ETF_ROWS` configures 25 tickers and every one of them
matches some rule branch of `signal_for`, so on configured input the
no-matching-rule fallback is unreachable: the produced signal is always
GREEN, YELLOW or RED and never the unclassified fallback category. -/
theorem etf_rows_all_classified :
    ETF_ROWS.length = 25 ∧
    ∀ tk ∈ ETF_ROWS.map Prod.fst, ∀ (s : Scalars) (TH : ThresholdCfg),
      (signal_for tk s TH = "GREEN" ∨ signal_for tk s TH = "YELLOW" ∨
       signal_for tk s TH = "RED") ∧ signal_for tk s TH ≠ UNCLASSIFIED := by
  refine ⟨rfl, ?_⟩
  intro tk htk s TH
  simp only [ETF_ROWS, List.map_cons, List.map_nil] at htk
  fin_cases htk <;> first | exact tier3_mem _ _ | exact tier2_mem _

theorem etf_rows_all_classified_witness :
    (signal_for "XLE" noneScalars sampleTH = "GREEN" ∨
     signal_for "XLE" noneScalars sampleTH = "YELLOW" ∨
     signal_for "XLE" noneScalars sampleTH = "RED") ∧
    signal_for "XLE" noneScalars sampleTH ≠ UNCLASSIFIED :=
  etf_rows_all_classified.2 "XLE" (by decide) noneScalars sampleTH

/-- Claim C7: the generic fetch returns normally with the first successful
attempt's frame (earlier transient failures are never surfaced); it succeeds
exactly when some attempt among its four (two URLs, two tries each)
succeeds; and when every attempt fails it reports the failure message
wrapping the last underlying error observed (the error of attempt 3, the
final try of the fallback URL). -/
theorem fetch_fred_series_retry_semantics (sid : String)
    (oracle : ℕ → Except String RawFrame) :
    (∀ i, i < 4 → ∀ raw, oracle i = Except.ok raw →
      (∀ j, j < i → ∃ e, oracle j = Except.error e) →
      fetch_fred_series sid oracle = Except.ok (coerceFrame sid raw)) ∧
    ((∃ f, fetch_fred_series sid oracle = Except.ok f) ↔
      ∃ i, i < 4 ∧ ∃ raw, oracle i = Except.ok raw) ∧
    (∀ e0 e1 e2 e3, oracle 0 = Except.error e0 → oracle 1 = Except.error e1 →
      oracle 2 = Except.error e2 → oracle 3 = Except.error e3 →
      fetch_fred_series sid oracle = Except.error (failMsg sid (some e3))) := by
  refine ⟨?_, ⟨?_, ?_⟩, ?_⟩
  · intro i hi raw hok hprev
    interval_cases i
    · simp [fetch_fred_series, runAttempts, hok]
    · obtain ⟨a0, h0⟩ := hprev 0 (by omega)
      simp [fetch_fred_series, runAttempts, h0, hok]
    · obtain ⟨a0, h0⟩ := hprev 0 (by omega)
      obtain ⟨a1, h1⟩ := hprev 1 (by omega)
      simp [fetch_fred_series, runAttempts, h0, h1, hok]
    · obtain ⟨a0, h0⟩ := hprev 0 (by omega)
      obtain ⟨a1, h1⟩ := hprev 1 (by omega)
      obtain ⟨a2, h2⟩ := hprev 2 (by omega)
      simp [fetch_fred_series, runAttempts, h0, h1, h2, hok]
  · rintro ⟨f, hf⟩
    rcases h0 : oracle 0 with e0 | r0
    · rcases h1 : oracle 1 with e1 | r1
      · rcases h2 : oracle 2 with e2 | r2
        · rcases h3 : oracle 3 with e3 | r3
          · exfalso
            simp [fetch_fred_series, runAttempts, h0, h1, h2, h3] at hf
          · exact ⟨3, by omega, r3, h3⟩
        · exact ⟨2, by omega, r2, h2⟩
      · exact ⟨1, by omega, r1, h1⟩
    · exact ⟨0, by omega, r0, h0⟩
  · rintro ⟨i, hi, raw, hok⟩
    rcases h0 : oracle 0 with e0 | r0
    · rcases h1 : oracle 1 with e1 | r1
      · rcases h2 : oracle 2 with e2 | r2
        · rcases h3 : oracle 3 with e3 | r3
          · exfalso
            interval_cases i <;> simp_all
          · exact ⟨coerceFrame sid r3, by simp [fetch_fred_series, runAttempts, h0, h1, h2, h3]⟩
        · exact ⟨coerceFrame sid r2, by simp [fetch_fred_series, runAttempts, h0, h1, h2]⟩
      · exact ⟨coerceFrame sid r1, by simp [fetch_fred_series, runAttempts, h0, h1]⟩
    · exact ⟨coerceFrame sid r0, by simp [fetch_fred_series, runAttempts, h0]⟩
  · intro e0 e1 e2 e3 h0 h1 h2 h3
    simp [fetch_fred_series, runAttempts, h0, h1, h2, h3]

/-- A concrete attempt oracle whose first attempt fails transiently and
whose later attempts succeed. -/
def sampleOracle : ℕ → Except String RawFrame :=
  fun i => if i = 0 then Except.error "boom" else Except.ok [(some 0, some 1)]

theorem fetch_fred_series_retry_semantics_witness :
    fetch_fred_series "DGS10" sampleOracle =
      Except.ok (coerceFrame "DGS10" [(some 0, some 1)]) :=
  (fetch_fred_series_retry_semantics "DGS10" sampleOracle).1 1 (by omega)
    [(some 0, some 1)] rfl (fun j hj => ⟨"boom", by interval_cases j; rfl⟩)

/-- Claim C8: the merge never aborts on an individual failure — it reports
the fatal no-data condition exactly when every fetch attempt failed;
otherwise (as soon as any series succeeded) it returns a table and warning
list in which every failed series contributes exactly its
"identifier: error" warning and no rows, every surviving row comes from a
successful series' frame, and every row of a successful frame with a
non-null value is included. -/
theorem merge_partial_failure_semantics (results : List (String × Except String (List Row))) :
    ((∀ p ∈ results, ∃ e, p.2 = Except.error e) ↔
      mergeFrames results = Except.error noDataMsg) ∧
    (∀ sid f, (sid, Except.ok f) ∈ results →
      ∃ tbl warns, mergeFrames results = Except.ok (tbl, warns) ∧
        (∀ s e, (s, Except.error e) ∈ results → (s ++ ": " ++ e) ∈ warns) ∧
        (∀ w ∈ warns, ∃ s e, (s, Except.error e) ∈ results ∧ w = s ++ ": " ++ e) ∧
        (∀ r ∈ f, r.value.isSome = true → r ∈ tbl) ∧
        (∀ r ∈ tbl, r.value.isSome = true ∧
          ∃ s g, (s, Except.ok g) ∈ results ∧ r ∈ g)) := by
  have hframes : ∀ g : List Row,
      (g ∈ results.filterMap (fun p =>
        match p.2 with
        | Except.ok f => some f
        | Except.error _ => none) ↔ ∃ s, (s, Except.ok g) ∈ results) := by
    intro g
    rw [List.mem_filterMap]
    constructor
    · rintro ⟨⟨s, out⟩, hp, hmatch⟩
      rcases out with e | f
      · simp at hmatch
      · simp at hmatch
        subst hmatch
        exact ⟨s, hp⟩
    · rintro ⟨s, hp⟩
      exact ⟨(s, Except.ok g), hp, rfl⟩
  constructor
  · constructor
    · intro hall
      have hempty : results.filterMap (fun p =>
          match p.2 with
          | Except.ok f => some f
          | Except.error _ => none) = [] := by
        rw [List.filterMap_eq_nil_iff]
        intro p hp
        obtain ⟨e, he⟩ := hall p hp
        rw [he]
      simp only [mergeFrames, hempty]
      rfl
    · intro hmerge p hp
      rcases hout : p.2 with e | f
      · exact ⟨e, rfl⟩
      · exfalso
        have hg : f ∈ results.filterMap (fun p =>
            match p.2 with
            | Except.ok f => some f
            | Except.error _ => none) :=
          (hframes f).mpr ⟨p.1, by rwa [← hout, Prod.mk.eta]⟩
        have hne : ¬ (results.filterMap (fun p =>
            match p.2 with
            | Except.ok f => some f
            | Except.error _ => none)).isEmpty = true := by
          intro hemp
          rw [List.isEmpty_iff] at hemp
          rw [hemp] at hg
          exact List.not_mem_nil f hg
        simp only [mergeFrames, if_neg hne] at hmerge
        exact Except.noConfusion hmerge
  · intro sid f hmem
    have hg : f ∈ results.filterMap (fun p =>
        match p.2 with
        | Except.ok f => some f
        | Except.error _ => none) := (hframes f).mpr ⟨sid, hmem⟩
    have hne : ¬ (results.filterMap (fun p =>
        match p.2 with
        | Except.ok f => some f
        | Except.error _ => none)).isEmpty = true := by
      intro hemp
      rw [List.isEmpty_iff] at hemp
      rw [hemp] at hg
      exact List.not_mem_nil f hg
    refine ⟨_, _, by simp only [mergeFrames, if_neg hne]; rfl, ?_, ?_, ?_, ?_⟩
    · intro s e hp
      rw [List.mem_filterMap]
      exact ⟨(s, Except.error e), hp, rfl⟩
    · intro w hw
      rw [List.mem_filterMap] at hw
      obtain ⟨⟨s, out⟩, hp, hmatch⟩ := hw
      rcases out with e | g
      · simp at hmatch
        exact ⟨s, e, hp, hmatch.symm⟩
      · simp at hmatch
    · intro r hr hv
      rw [List.mem_filter]
      refine ⟨List.mem_flatten.mpr ⟨f, hg, hr⟩, hv⟩
    · intro r hr
      rw [List.mem_filter] at hr
      obtain ⟨hrj, hv⟩ := hr
      obtain ⟨g, hgmem, hrg⟩ := List.mem_flatten.mp hrj
      obtain ⟨s, hs⟩ := (hframes g).mp hgmem
      exact ⟨hv, s, g, hs, hrg⟩

/-- A concrete merge input: one successful series and one failed series. -/
def sampleResults : List (String × Except String (List Row)) :=
  [("DGS10", Except.ok [{ date := some 1, value := some 2, name := "DGS10" }]),
   ("DGS2", Except.error "down")]

theorem merge_partial_failure_semantics_witness :
    ∃ tbl warns, mergeFrames sampleResults = Except.ok (tbl, warns) ∧
      (∀ s e, (s, Except.error e) ∈ sampleResults → (s ++ ": " ++ e) ∈ warns) ∧
      (∀ w ∈ warns, ∃ s e, (s, Except.error e) ∈ sampleResults ∧ w = s ++ ": " ++ e) ∧
      (∀ r ∈ [({ date := some 1, value := some 2, name := "DGS10" } : Row)],
        r.value.isSome = true → r ∈ tbl) ∧
      (∀ r ∈ tbl, r.value.isSome = true ∧
        ∃ s g, (s, Except.ok g) ∈ sampleResults ∧ r ∈ g) :=
  (merge_partial_failure_semantics sampleResults).2 "DGS10"
    [{ date := some 1, value := some 2, name := "DGS10" }] (List.mem_cons_self _ _)

lemma runAttempts_ok_shape (sid : String) (oracle : ℕ → Except String RawFrame) :
    ∀ (idxs : List ℕ) (last : Option String) (f : List Row),
      runAttempts sid oracle idxs last = Except.ok f →
      ∃ i raw, oracle i = Except.ok raw ∧ f = coerceFrame sid raw := by
  intro idxs
  induction idxs with
  | nil =>
    intro last f h
    exact Except.noConfusion h
  | cons i rest ih =>
    intro last f h
    unfold runAttempts at h
    rcases hi : oracle i with e | raw
    · rw [hi] at h
      exact ih (some e) f h
    · rw [hi] at h
      exact ⟨i, raw, hi, (Except.ok.injEq _ _ ▸ h).symm⟩

/-- Claim C9 counterexample: a successful `fetch_fred_series` output can
contain a row whose value is null — a row with a valid date but an
uncoercible value cell survives the fetch-time `dropna(subset=["Date"])` —
so the claim's final clause "both nulls are filtered at fetch time" is
false of the code (value nulls are filtered at merge time). -/
theorem fetch_keeps_null_value_counterexample :
    ∃ f, fetch_fred_series "DGS10" (fun _ => Except.ok [(some 0, none)]) = Except.ok f ∧
      ∃ r ∈ f, r.value.isSome = false := by
  refine ⟨[{ date := some 0, value := none, name := "DGS10" }], rfl,
    { date := some 0, value := none, name := "DGS10" }, List.mem_cons_self _ _, rfl⟩

/-- Claim C9 as amended: every row of a successful fetch (generic or TP10)
has a non-null date — date-coercion failures are dropped at fetch time —
while a row with a valid date and a null value is kept through fetch; the
merge step then drops exactly the null-value rows, so every observation in
the merged table has a non-null date and a non-null value.  (The claim's
clause that value nulls are also filtered at fetch time is refuted by the
counterexample.) -/
theorem merged_table_nonnull_invariant :
    (∀ sid oracle f, fetch_fred_series sid oracle = Except.ok f →
      ∀ r ∈ f, r.date.isSome = true) ∧
    (∀ oracle f, fetch_tp10 oracle = Except.ok f → ∀ r ∈ f, r.date.isSome = true) ∧
    (∀ (sid : String) (raw : RawFrame) (c : Option ℤ × Option ℚ), c ∈ raw →
      (c.1).isSome = true →
      ({ date := c.1, value := c.2, name := sid } : Row) ∈ coerceFrame sid raw) ∧
    (∀ results tbl warns, mergeFrames results = Except.ok (tbl, warns) →
      (∀ p ∈ results, ∀ f, p.2 = Except.ok f → ∀ r ∈ f, r.date.isSome = true) →
      ∀ r ∈ tbl, r.date.isSome = true ∧ r.value.isSome = true) := by
  have hcoerce : ∀ (sid : String) (raw : RawFrame) (r : Row),
      r ∈ coerceFrame sid raw → r.date.isSome = true := by
    intro sid raw r hr
    exact (List.mem_filter.mp hr).2
  refine ⟨?_, ?_, ?_, ?_⟩
  · intro sid oracle f hf r hr
    obtain ⟨i, raw, hok, hshape⟩ := runAttempts_ok_shape sid oracle [0, 1, 2, 3] none f hf
    exact hcoerce sid raw r (hshape ▸ hr)
  · intro oracle f hf r hr
    obtain ⟨i, raw, hok, hshape⟩ := runAttempts_ok_shape "TP10" oracle [0, 1, 2, 3] none f hf
    exact hcoerce "TP10" raw r (hshape ▸ hr)
  · intro sid raw c hc hdate
    rw [coerceFrame, List.mem_filter]
    exact ⟨List.mem_map.mpr ⟨c, hc, rfl⟩, hdate⟩
  · intro results tbl warns hmerge hdates r hr
    rcases hemp : (results.filterMap (fun p =>
        match p.2 with
        | Except.ok f => some f
        | Except.error _ => none)).isEmpty with _ | _
    · simp only [mergeFrames, hemp, if_false, Bool.false_eq_true] at hmerge
      obtain ⟨htbl, hwarns⟩ := Prod.mk.injEq .. ▸ (Except.ok.injEq _ _ ▸ hmerge)
      subst htbl
      rw [List.mem_filter] at hr
      obtain ⟨hrj, hv⟩ := hr
      obtain ⟨g, hgmem, hrg⟩ := List.mem_flatten.mp hrj
      rw [List.mem_filterMap] at hgmem
      obtain ⟨p, hp, hmatch⟩ := hgmem
      rcases hout : p.2 with e | f
      · rw [hout] at hmatch
        exact Option.noConfusion hmatch
      · rw [hout] at hmatch
        have hfg : f = g := Option.some.injEq _ _ ▸ hmatch
        subst hfg
        exact ⟨hdates p hp f hout r hrg, hv⟩
    · simp only [mergeFrames, hemp, if_true] at hmerge
      exact Except.noConfusion hmerge

theorem merged_table_nonnull_invariant_witness :
    ∀ r ∈ [({ date := some 0, value := some 1, name := "DGS10" } : Row)],
      r.date.isSome = true :=
  merged_table_nonnull_invariant.1 "DGS10" (fun _ => Except.ok [(some 0, some 1)])
    [{ date := some 0, value := some 1, name := "DGS10" }] rfl
